import Mathlib

/-!
Verification of the task-workflow service (task lifecycle engine).

The development shallowly embeds the repository's core:
* `TaskDomain.validateTransition` and `TaskDomain.canAssign`
  (src/domain/task.ts),
* `TaskRepository.create`, `TaskRepository.assign`,
  `TaskRepository.transition` and `TaskRepository.list`
  (src/repositories/taskRepository.ts).

The SQLite store is modelled as lists of rows.  Each repository method runs
inside one `better-sqlite3` transaction, which the embedding reflects by
making every method an atomic function from store to store; a thrown error
(`TaskNotFound`, `VersionMismatch`, `InvalidState`) rolls the transaction
back and leaves the store unchanged, which the embedding reflects by
returning `Except.error` carrying no store.  The ambient clock
(`Date.now()` / SQLite `unixepoch()`) is passed in as a `now : Int`
parameter, and the random UUID of a freshly inserted event row is modelled
by a counter (the current length of the event table); no claim depends on
the identity values themselves.
-/

namespace Workflow

inductive TaskState
  | NEW
  | IN_PROGRESS
  | DONE
  | CANCELLED
deriving DecidableEq, Repr

inductive TaskPriority
  | LOW
  | MEDIUM
  | HIGH
deriving DecidableEq, Repr

inductive UserRole
  | agent
  | manager
deriving DecidableEq, Repr

/-- A row of the `tasks` table (interface `Task` in src/domain/task.ts). -/
structure Task where
  id : String
  tenantId : String
  workspaceId : String
  title : String
  priority : TaskPriority
  state : TaskState
  assigneeId : Option String
  version : Nat
  createdAt : Int
  updatedAt : Int
deriving DecidableEq, Repr

namespace TaskDomain

/-- The `allowed` transition table inside `validateTransition`. -/
def allowed : TaskState → List TaskState
  | .NEW => [.IN_PROGRESS, .CANCELLED]
  | .IN_PROGRESS => [.DONE, .CANCELLED]
  | .DONE => []
  | .CANCELLED => []

/-- Embedding of `TaskDomain.validateTransition` from src/domain/task.ts. -/
def validateTransition (currentState toState : TaskState) (role : UserRole)
    (assigneeId : Option String) (currentUserId : String) : Bool :=
  -- 1. Common State Machine Rules
  if ¬ (toState ∈ allowed currentState) then
    false
  else
    -- 2. Role-based Rules
    match role with
    | .manager =>
      -- Manager can only Cancel (from NEW or IN_PROGRESS)
      toState = .CANCELLED
    | .agent =>
      -- Agent must be the assignee
      if assigneeId ≠ some currentUserId then
        false
      else if currentState = .NEW ∧ toState = .IN_PROGRESS then
        true
      else if currentState = .IN_PROGRESS ∧ toState = .DONE then
        true
      else
        false

/-- Embedding of `TaskDomain.canAssign` from src/domain/task.ts. -/
def canAssign (state : TaskState) (role : UserRole) : Bool :=
  if role ≠ .manager then false
  else state = .NEW ∨ state = .IN_PROGRESS

end TaskDomain

/-- The payload column of a `task_events` row, tagged by `event_type`.
`created` stores the inserted task object (the snapshot written by
`create`, i.e. the input fields plus `version`), `assigned` stores
`{ assigneeId }`, `stateChanged` stores `{ from, to }`. -/
inductive EventData
  | created (snapshot : Task)
  | assigned (assigneeId : String)
  | stateChanged (fromState toState : TaskState)
deriving DecidableEq, Repr

/-- A row of the `task_events` table.  The UUID `id` is modelled as a
counter. -/
structure TaskEvent where
  id : Nat
  taskId : String
  data : EventData
  createdAt : Int
deriving DecidableEq, Repr

/-- The wire response `{ task_id, state, version }` returned by the
repository's mutating methods. -/
structure ApiResult where
  task_id : String
  state : TaskState
  version : Nat
deriving DecidableEq, Repr

/-- A row of the `idempotency_keys` table. -/
structure IdemRecord where
  key : String
  responsePayload : ApiResult
  createdAt : Int
deriving DecidableEq, Repr

/-- The three durable tables, each as a list of rows in insertion order. -/
structure Store where
  tasks : List Task
  taskEvents : List TaskEvent
  idempotencyKeys : List IdemRecord
deriving DecidableEq, Repr

inductive RepoError
  | TaskNotFound
  | VersionMismatch
  | InvalidState
deriving DecidableEq, Repr

/-- Embedding of `SELECT * FROM tasks WHERE id = taskId` (at most one row: `id` is the
primary key; on a list this is the first matching row). -/
def selectTask (rows : List Task) (taskId : String) : Option Task :=
  rows.find? (fun t => t.id = taskId)

/-- Embedding of `UPDATE tasks SET ... WHERE id = taskId AND version = version`:
applies `f` to every row matching both conditions. -/
def updateWhere (rows : List Task) (taskId : String) (version : Nat)
    (f : Task → Task) : List Task :=
  rows.map (fun t => if t.id = taskId ∧ t.version = version then f t else t)

/-- Embedding of `INSERT INTO task_events VALUES (uuidv4(), taskId, ..., unixepoch())`,
with the UUID modelled as the row count. -/
def appendEvent (st : Store) (taskId : String) (data : EventData)
    (now : Int) : Store :=
  { st with taskEvents :=
      st.taskEvents ++ [⟨st.taskEvents.length, taskId, data, now⟩] }

/-- The argument object of `TaskRepository.create`
(`Omit<Task, 'createdAt' | 'updatedAt' | 'version' | 'id'> & {id: string}`). -/
structure CreateParams where
  id : String
  tenantId : String
  workspaceId : String
  title : String
  priority : TaskPriority
  state : TaskState
  assigneeId : Option String
deriving DecidableEq, Repr

/-- The task row inserted by `create`: the input fields with `version = 1`
and the DB-default timestamps `unixepoch()`. -/
def CreateParams.toTask (p : CreateParams) (now : Int) : Task :=
  { id := p.id, tenantId := p.tenantId, workspaceId := p.workspaceId,
    title := p.title, priority := p.priority, state := p.state,
    assigneeId := p.assigneeId, version := 1,
    createdAt := now, updatedAt := now }

namespace TaskRepository

/-- Embedding of `TaskRepository.create` from src/repositories/taskRepository.ts.
One transaction: idempotency lookup, task insert, outbox event insert,
idempotency record insert.  Always succeeds, returning the response and
the new store. -/
def create (p : CreateParams) (idempotencyKey : Option String)
    (now : Int) (st : Store) : ApiResult × Store :=
  -- 1. Idempotency Check
  let cached := idempotencyKey.bind
    (fun key => st.idempotencyKeys.find? (fun r => r.key = key))
  match cached with
  | some existing => (existing.responsePayload, st)
  | none =>
    -- 2. Insert Task
    let newTask := p.toTask now
    let st1 := { st with tasks := st.tasks ++ [newTask] }
    -- 3. Outbox Event
    let st2 := appendEvent st1 p.id (.created newTask) now
    let result : ApiResult := ⟨p.id, p.state, 1⟩
    -- 4. Save Idempotency Key
    let st3 :=
      match idempotencyKey with
      | some key =>
        { st2 with idempotencyKeys :=
            st2.idempotencyKeys ++ [⟨key, result, now⟩] }
      | none => st2
    (result, st3)

/-- Embedding of `TaskRepository.assign` from src/repositories/taskRepository.ts.
Checks, in this order: missing row, version mismatch, terminal state;
then updates assignee/version/updatedAt and appends one TaskAssigned
event. -/
def assign (taskId : String) (assigneeId : String) (currentVersion : Nat)
    (now : Int) (st : Store) : Except RepoError (ApiResult × Store) :=
  match selectTask st.tasks taskId with
  | none => .error .TaskNotFound
  | some task =>
    if task.version ≠ currentVersion then .error .VersionMismatch
    else if task.state = .DONE ∨ task.state = .CANCELLED then
      .error .InvalidState
    else
      -- Update
      let nextVersion := currentVersion + 1
      let upd := fun (t : Task) =>
        { t with assigneeId := some assigneeId, version := nextVersion,
                 updatedAt := now }
      let st1 := { st with tasks := updateWhere st.tasks taskId currentVersion upd }
      -- Outbox
      let st2 := appendEvent st1 taskId (.assigned assigneeId) now
      .ok (⟨taskId, task.state, nextVersion⟩, st2)

/-- Embedding of `TaskRepository.transition` from src/repositories/taskRepository.ts.
Checks only: missing row, version mismatch (there is no terminal-state
check in the source); then updates state/version/updatedAt and appends
one TaskStateChanged event. -/
def transition (taskId : String) (toState : TaskState)
    (currentVersion : Nat) (now : Int) (st : Store) :
    Except RepoError (ApiResult × Store) :=
  match selectTask st.tasks taskId with
  | none => .error .TaskNotFound
  | some task =>
    if task.version ≠ currentVersion then .error .VersionMismatch
    else
      let nextVersion := currentVersion + 1
      let upd := fun (t : Task) =>
        { t with state := toState, version := nextVersion, updatedAt := now }
      let st1 := { st with tasks := updateWhere st.tasks taskId currentVersion upd }
      -- Outbox
      let st2 := appendEvent st1 taskId (.stateChanged task.state toState) now
      .ok (⟨taskId, toState, nextVersion⟩, st2)

/-- The `filters` argument of `TaskRepository.list`.  `cursor` holds the
already-parsed creation-time boundary (`parseInt` of the query string is
query-string plumbing outside the core). -/
structure ListFilters where
  state : Option TaskState
  assigneeId : Option String
  limit : Option Nat
  cursor : Option Int
deriving DecidableEq, Repr

/-- Descending creation-time order (`ORDER BY created_at DESC`). -/
def createdDesc (a b : Task) : Prop := b.createdAt ≤ a.createdAt

instance : DecidableRel createdDesc :=
  fun a b => inferInstanceAs (Decidable (b.createdAt ≤ a.createdAt))

instance : IsTotal Task createdDesc :=
  ⟨fun a b => le_total b.createdAt a.createdAt⟩

instance : IsTrans Task createdDesc :=
  ⟨fun _ _ _ h1 h2 => le_trans h2 h1⟩

/-- The row predicate assembled from the `conditions` array in
`TaskRepository.list`. -/
def listMatches (workspaceId tenantId : String)
    (f : ListFilters) (t : Task) : Bool :=
  t.workspaceId = workspaceId ∧ t.tenantId = tenantId
    ∧ (∀ s ∈ f.state, t.state = s)
    ∧ (∀ a ∈ f.assigneeId, t.assigneeId = some a)
    ∧ (∀ c ∈ f.cursor, t.createdAt < c)

/-- Embedding of `filters.limit || 20`: JavaScript `||` falls back to 20 when the
limit is absent or 0 (falsy). -/
def limitOrDefault : Option Nat → Nat
  | none => 20
  | some 0 => 20
  | some n => n

/-- Embedding of `TaskRepository.list` from src/repositories/taskRepository.ts:
`WHERE` all conditions, `ORDER BY created_at DESC`,
`LIMIT filters.limit || 20`. -/
def list (workspaceId tenantId : String) (f : ListFilters)
    (st : Store) : List Task :=
  let limit := limitOrDefault f.limit
  (((st.tasks.filter (listMatches workspaceId tenantId f)).insertionSort
      createdDesc).take limit)

end TaskRepository

example :
    (TaskRepository.create ⟨"t1", "tenant_1", "ws_1", "A", .HIGH, .NEW, none⟩
      (some "k") 7 ⟨[], [], []⟩).1 = ⟨"t1", .NEW, 1⟩ := by decide

example :
    TaskRepository.assign "t1" "u1" 1 9
      ⟨[⟨"t1", "tenant_1", "ws_1", "A", .HIGH, .NEW, none, 1, 7, 7⟩], [], []⟩
      = .ok (⟨"t1", .NEW, 2⟩,
        ⟨[⟨"t1", "tenant_1", "ws_1", "A", .HIGH, .NEW, some "u1", 2, 7, 9⟩],
         [⟨0, "t1", .assigned "u1", 9⟩], []⟩) := rfl


/-! ## Theorems -/

deriving instance DecidableEq for Except

/-- Generic list fact: a `find?` that misses the first chunk of an
appended list continues in the second chunk. -/
theorem find?_append_of_none {α : Type} (p : α → Bool) (l1 l2 : List α)
    (h : l1.find? p = none) : (l1 ++ l2).find? p = l2.find? p := by
  rw [List.find?_append, h]
  rfl

/-- Generic fact about the embedding of the conditional `UPDATE`: when the
row `t` is the one `SELECT ... WHERE id = taskId` returns, the same select
after `updateWhere` returns `t` transformed exactly when `t` met the
`WHERE` clause, for any row function `f` that does not change `id`. -/
theorem selectTask_updateWhere (rows : List Task) (taskId : String) (v : Nat)
    (f : Task → Task) (hid : ∀ x, (f x).id = x.id) (t : Task)
    (h : selectTask rows taskId = some t) :
    selectTask (updateWhere rows taskId v f) taskId =
      some (if t.id = taskId ∧ t.version = v then f t else t) := by
  unfold selectTask updateWhere at *
  induction rows with
  | nil => simp at h
  | cons a l ih =>
    by_cases ha : a.id = taskId
    · rw [List.find?_cons_of_pos _ (by simp [ha])] at h
      have hta : t = a := by simpa using h.symm
      subst hta
      rw [List.map_cons]
      by_cases hcond : t.id = taskId ∧ t.version = v
      · rw [if_pos hcond, List.find?_cons_of_pos _ (by simp [hid, ha])]
      · rw [if_neg hcond, List.find?_cons_of_pos _ (by simp [ha])]
    · rw [List.find?_cons_of_neg _ (by simp [ha])] at h
      rw [List.map_cons, List.find?_cons_of_neg _ (by simp [ha])]
      exact ih h

/-- The row returned by `selectTask rows taskId` has `id = taskId`. -/
theorem selectTask_id (rows : List Task) (taskId : String) (t : Task)
    (h : selectTask rows taskId = some t) : t.id = taskId := by
  have := List.find?_some h
  simpa using this

/-- C5: the function `TaskDomain.validateTransition` returns true iff the requested
edge is in the table {NEW→IN_PROGRESS, NEW→CANCELLED, IN_PROGRESS→DONE,
IN_PROGRESS→CANCELLED} and the role overlay holds: a manager only for
`toState = CANCELLED`; an agent only when assigned to the acting user and
the edge is NEW→IN_PROGRESS or IN_PROGRESS→DONE.  In particular every
edge out of DONE or CANCELLED, and NEW→DONE, is rejected for every role,
and an agent can never cancel. -/
theorem validateTransition_iff (currentState toState : TaskState)
    (role : UserRole) (assigneeId : Option String) (currentUserId : String) :
    TaskDomain.validateTransition currentState toState role assigneeId
        currentUserId = true ↔
      (((currentState = .NEW ∧ toState = .IN_PROGRESS) ∨
        (currentState = .NEW ∧ toState = .CANCELLED) ∨
        (currentState = .IN_PROGRESS ∧ toState = .DONE) ∨
        (currentState = .IN_PROGRESS ∧ toState = .CANCELLED)) ∧
       (match role with
        | .manager => toState = .CANCELLED
        | .agent => assigneeId = some currentUserId ∧
            ((currentState = .NEW ∧ toState = .IN_PROGRESS) ∨
             (currentState = .IN_PROGRESS ∧ toState = .DONE)))) := by
  cases role <;> cases currentState <;> cases toState <;>
    by_cases h : assigneeId = some currentUserId <;>
    simp [TaskDomain.validateTransition, TaskDomain.allowed, h]

/-- C7: the function `TaskDomain.canAssign` returns true iff the role is manager and
the state is NEW or IN_PROGRESS; every other pair, including managers on
terminal tasks and all agents, is rejected. -/
theorem canAssign_iff (state : TaskState) (role : UserRole) :
    TaskDomain.canAssign state role = true ↔
      (role = .manager ∧ (state = .NEW ∨ state = .IN_PROGRESS)) := by
  cases state <;> cases role <;> simp [TaskDomain.canAssign]

/-- C1 fails on the code: the method `TaskRepository.transition` performs no
terminal-state check, so on a stored DONE task with matching
expectedVersion it succeeds, moves the state to IN_PROGRESS, bumps the
version to 2 and appends a TaskStateChanged event, instead of failing
with the terminal-state guard. -/
theorem transition_mutates_terminal_task :
    TaskRepository.transition "t1" .IN_PROGRESS 1 5
      ⟨[⟨"t1", "tenant_1", "ws_1", "T", .MEDIUM, .DONE, none, 1, 0, 0⟩],
       [], []⟩
      = .ok (⟨"t1", .IN_PROGRESS, 2⟩,
          ⟨[⟨"t1", "tenant_1", "ws_1", "T", .MEDIUM, .IN_PROGRESS, none,
             2, 0, 5⟩],
           [⟨0, "t1", .stateChanged .DONE .IN_PROGRESS, 5⟩], []⟩) := by
  decide

/-- C2 counterexample: for a stored DONE task with version 2, an assign
with expectedVersion 1 signals VersionMismatch, not InvalidState — the
version guard runs before the terminal-state guard. -/
theorem assign_terminal_stale_version_mismatch :
    TaskRepository.assign "t1" "u1" 1 5
      ⟨[⟨"t1", "tenant_1", "ws_1", "T", .MEDIUM, .DONE, none, 2, 0, 0⟩],
       [], []⟩
      = .error .VersionMismatch ∧
    TaskRepository.assign "t1" "u1" 1 5
      ⟨[⟨"t1", "tenant_1", "ws_1", "T", .MEDIUM, .DONE, none, 2, 0, 0⟩],
       [], []⟩
      ≠ .error .InvalidState := by
  decide

/-- C2 amended: the method `TaskRepository.assign` applies its checks in the order
absent-row → version → terminal-state, so the version guard takes
precedence: a terminal task whose stored version differs from
expectedVersion gets VersionMismatch, and InvalidState is only signalled
when the version matches. -/
theorem assign_check_order (st : Store) (taskId assigneeId : String)
    (expectedVersion : Nat) (now : Int) (t : Task)
    (hfind : selectTask st.tasks taskId = some t)
    (hterm : t.state = .DONE ∨ t.state = .CANCELLED) :
    (t.version ≠ expectedVersion →
      TaskRepository.assign taskId assigneeId expectedVersion now st
        = .error .VersionMismatch) ∧
    (t.version = expectedVersion →
      TaskRepository.assign taskId assigneeId expectedVersion now st
        = .error .InvalidState) := by
  unfold TaskRepository.assign
  rw [hfind]
  constructor
  · intro hv
    simp [hv]
  · intro hv
    simp [hv, hterm]

/-- Witness for C2's amended theorem at a concrete store. -/
theorem assign_check_order_witness :
    (TaskRepository.assign "t1" "u1" 1 5
        ⟨[⟨"t1", "tenant_1", "ws_1", "T", .MEDIUM, .DONE, none, 2, 0, 0⟩],
         [], []⟩
      = .error .VersionMismatch) ∧
    (TaskRepository.assign "t1" "u1" 2 5
        ⟨[⟨"t1", "tenant_1", "ws_1", "T", .MEDIUM, .DONE, none, 2, 0, 0⟩],
         [], []⟩
      = .error .InvalidState) := by
  refine ⟨?_, ?_⟩
  · exact (assign_check_order
      ⟨[⟨"t1", "tenant_1", "ws_1", "T", .MEDIUM, .DONE, none, 2, 0, 0⟩],
       [], []⟩ "t1" "u1" 1 5
      ⟨"t1", "tenant_1", "ws_1", "T", .MEDIUM, .DONE, none, 2, 0, 0⟩
      (by decide) (by decide)).1 (by decide)
  · exact (assign_check_order
      ⟨[⟨"t1", "tenant_1", "ws_1", "T", .MEDIUM, .DONE, none, 2, 0, 0⟩],
       [], []⟩ "t1" "u1" 2 5
      ⟨"t1", "tenant_1", "ws_1", "T", .MEDIUM, .DONE, none, 2, 0, 0⟩
      (by decide) (by decide)).2 (by decide)


/-- Shared helper: a second `create` with the same idempotency key (under
any payload) returns exactly the first call's response and leaves the
store exactly as the first call left it: no task row, no event, no
idempotency record is added or changed by the second call. -/
theorem create_second_call_cached (p1 p2 : CreateParams) (k : String)
    (now1 now2 : Int) (st : Store) :
    TaskRepository.create p2 (some k) now2
        (TaskRepository.create p1 (some k) now1 st).2
      = ((TaskRepository.create p1 (some k) now1 st).1,
         (TaskRepository.create p1 (some k) now1 st).2) := by
  cases hfound : st.idempotencyKeys.find? (fun r => r.key = k) with
  | some existing =>
    unfold TaskRepository.create
    simp only [Option.some_bind]
    rw [hfound]
    dsimp only
    rw [hfound]
  | none =>
    unfold TaskRepository.create
    simp only [Option.some_bind]
    rw [hfound]
    dsimp only [appendEvent]
    rw [find?_append_of_none _ _ _ hfound]
    simp [List.find?]

/-- C3: calling `create` twice with the same idempotency key returns the
identical response both times, and the second call changes nothing in
the store: no new Task row, no second TaskCreated event, and the cached
idempotency record is untouched. -/
theorem create_idempotent (p : CreateParams) (k : String)
    (now1 now2 : Int) (st : Store) :
    (TaskRepository.create p (some k) now2
        (TaskRepository.create p (some k) now1 st).2).1
      = (TaskRepository.create p (some k) now1 st).1 ∧
    (TaskRepository.create p (some k) now2
        (TaskRepository.create p (some k) now1 st).2).2
      = (TaskRepository.create p (some k) now1 st).2 := by
  rw [create_second_call_cached p p k now1 now2 st]
  exact ⟨rfl, rfl⟩

/-- C10 (implicit): the idempotency check compares only the key — a second
`create` with the same key but arbitrarily different title, priority,
workspace or tenant still returns the first call's cached response and
creates no task and no event. -/
theorem create_idempotency_ignores_payload (p1 p2 : CreateParams)
    (k : String) (now1 now2 : Int) (st : Store) :
    (TaskRepository.create p2 (some k) now2
        (TaskRepository.create p1 (some k) now1 st).2).1
      = (TaskRepository.create p1 (some k) now1 st).1 ∧
    (TaskRepository.create p2 (some k) now2
        (TaskRepository.create p1 (some k) now1 st).2).2
      = (TaskRepository.create p1 (some k) now1 st).2 := by
  rw [create_second_call_cached p1 p2 k now1 now2 st]
  exact ⟨rfl, rfl⟩


/-- A store-level mutating call on an existing task, as dispatched by the
controller: either `TaskRepository.assign` or `TaskRepository.transition`. -/
inductive RepoOp
  | assignOp (assigneeId : String)
  | transitionOp (toState : TaskState)

/-- Runs a `RepoOp` against the store. -/
def runOp (op : RepoOp) (taskId : String) (expectedVersion : Nat)
    (now : Int) (st : Store) : Except RepoError (ApiResult × Store) :=
  match op with
  | .assignOp a => TaskRepository.assign taskId a expectedVersion now st
  | .transitionOp s => TaskRepository.transition taskId s expectedVersion now st

/-- The payload of the single event each `RepoOp` writes on success:
TaskAssigned with the new assignee, or TaskStateChanged with
the observed prior state and the requested state. -/
def opEventData (op : RepoOp) (t : Task) : EventData :=
  match op with
  | .assignOp a => .assigned a
  | .transitionOp s => .stateChanged t.state s

/-- C4: every successful `assign` or `transition` returns version exactly
old + 1, leaves the stored task at version exactly old + 1, and appends
exactly one event row, of the kind matching the operation (TaskAssigned
with the new assignee, TaskStateChanged with {from, to}) — never zero
events, never more than one. -/
theorem mutation_version_event (op : RepoOp) (taskId : String) (v : Nat)
    (now : Int) (st : Store) (t : Task) (r : ApiResult) (st2 : Store)
    (hfind : selectTask st.tasks taskId = some t)
    (hok : runOp op taskId v now st = .ok (r, st2)) :
    r.version = t.version + 1 ∧
    (∃ t2, selectTask st2.tasks taskId = some t2 ∧
      t2.version = t.version + 1) ∧
    st2.taskEvents = st.taskEvents ++
      [⟨st.taskEvents.length, taskId, opEventData op t, now⟩] := by
  cases op with
  | assignOp a =>
    unfold runOp TaskRepository.assign at hok
    rw [hfind] at hok
    dsimp only at hok
    by_cases hv : t.version ≠ v
    · rw [if_pos hv] at hok
      simp at hok
    · rw [if_neg hv] at hok
      push_neg at hv
      by_cases hterm : t.state = .DONE ∨ t.state = .CANCELLED
      · rw [if_pos hterm] at hok
        simp at hok
      · rw [if_neg hterm] at hok
        simp only [Except.ok.injEq, Prod.mk.injEq] at hok
        obtain ⟨hr, hst⟩ := hok
        subst hr
        subst hst
        refine ⟨by simp [hv], ?_, by simp [appendEvent, opEventData]⟩
        have hsel := selectTask_updateWhere st.tasks taskId v
          (fun x => { x with assigneeId := some a, version := v + 1,
                             updatedAt := now })
          (fun _ => rfl) t hfind
        rw [if_pos ⟨selectTask_id _ _ _ hfind, hv⟩] at hsel
        exact ⟨_, hsel, by simp [hv]⟩
  | transitionOp s =>
    unfold runOp TaskRepository.transition at hok
    rw [hfind] at hok
    dsimp only at hok
    by_cases hv : t.version ≠ v
    · rw [if_pos hv] at hok
      simp at hok
    · rw [if_neg hv] at hok
      push_neg at hv
      simp only [Except.ok.injEq, Prod.mk.injEq] at hok
      obtain ⟨hr, hst⟩ := hok
      subst hr
      subst hst
      refine ⟨by simp [hv], ?_, by simp [appendEvent, opEventData]⟩
      have hsel := selectTask_updateWhere st.tasks taskId v
        (fun x => { x with state := s, version := v + 1, updatedAt := now })
        (fun _ => rfl) t hfind
      rw [if_pos ⟨selectTask_id _ _ _ hfind, hv⟩] at hsel
      exact ⟨_, hsel, by simp [hv]⟩

/-- Witness for C4 at a concrete store: assigning "u1" to a NEW task at
version 1 returns version 2, stores version 2 and appends exactly one
TaskAssigned event. -/
theorem mutation_version_event_witness :
    (2 : Nat) = 2 ∧
    (∃ t2, selectTask
        [⟨"t1", "tenant_1", "ws_1", "A", .HIGH, .NEW, some "u1", 2, 7, 9⟩]
        "t1" = some t2 ∧ t2.version = 2) ∧
    ([⟨0, "t1", .assigned "u1", 9⟩] : List TaskEvent)
      = [] ++ [⟨0, "t1", .assigned "u1", 9⟩] :=
  mutation_version_event (.assignOp "u1") "t1" 1 9
    ⟨[⟨"t1", "tenant_1", "ws_1", "A", .HIGH, .NEW, none, 1, 7, 7⟩], [], []⟩
    ⟨"t1", "tenant_1", "ws_1", "A", .HIGH, .NEW, none, 1, 7, 7⟩
    ⟨"t1", .NEW, 2⟩
    ⟨[⟨"t1", "tenant_1", "ws_1", "A", .HIGH, .NEW, some "u1", 2, 7, 9⟩],
     [⟨0, "t1", .assigned "u1", 9⟩], []⟩
    (by decide) (by decide)

/-- C9: a successful `assign` on a stored non-terminal task with matching
expectedVersion succeeds, returns the pre-call state, and mutates only
the assignee, the version (incremented by 1) and the last-modified
timestamp: id, tenant, workspace, title, priority, state and creation
time are all unchanged. -/
theorem assign_frame (st : Store) (taskId a : String) (v : Nat) (now : Int)
    (t : Task) (hfind : selectTask st.tasks taskId = some t)
    (hv : t.version = v)
    (hterm : ¬ (t.state = .DONE ∨ t.state = .CANCELLED)) :
    ∃ st2, TaskRepository.assign taskId a v now st
        = .ok (⟨taskId, t.state, v + 1⟩, st2) ∧
      selectTask st2.tasks taskId
        = some { t with assigneeId := some a, version := v + 1,
                        updatedAt := now } := by
  unfold TaskRepository.assign
  rw [hfind]
  dsimp only
  rw [if_neg (by simp [hv]), if_neg hterm]
  refine ⟨_, rfl, ?_⟩
  have hsel := selectTask_updateWhere st.tasks taskId v
    (fun x => { x with assigneeId := some a, version := v + 1,
                       updatedAt := now })
    (fun _ => rfl) t hfind
  rw [if_pos ⟨selectTask_id _ _ _ hfind, hv⟩] at hsel
  exact hsel

/-- Witness for C9 at a concrete store. -/
theorem assign_frame_witness :
    ∃ st2, TaskRepository.assign "t1" "u1" 1 9
        ⟨[⟨"t1", "tenant_1", "ws_1", "A", .HIGH, .NEW, none, 1, 7, 7⟩],
         [], []⟩
        = .ok (⟨"t1", .NEW, 2⟩, st2) ∧
      selectTask st2.tasks "t1"
        = some ⟨"t1", "tenant_1", "ws_1", "A", .HIGH, .NEW, some "u1",
                2, 7, 9⟩ :=
  assign_frame
    ⟨[⟨"t1", "tenant_1", "ws_1", "A", .HIGH, .NEW, none, 1, 7, 7⟩], [], []⟩
    "t1" "u1" 1 9
    ⟨"t1", "tenant_1", "ws_1", "A", .HIGH, .NEW, none, 1, 7, 7⟩
    (by decide) (by decide) (by decide)


/-- Running a `RepoOp` against a stored task whose version differs from
expectedVersion fails with VersionMismatch: both `assign` and
`transition` run the version guard before anything else after the read. -/
theorem runOp_version_mismatch (op : RepoOp) (taskId : String) (v : Nat)
    (now : Int) (st : Store) (t : Task)
    (hfind : selectTask st.tasks taskId = some t)
    (hne : t.version ≠ v) :
    runOp op taskId v now st = .error .VersionMismatch := by
  cases op with
  | assignOp a =>
    unfold runOp TaskRepository.assign
    rw [hfind]
    dsimp only
    rw [if_pos hne]
  | transitionOp s =>
    unfold runOp TaskRepository.transition
    rw [hfind]
    dsimp only
    rw [if_pos hne]

/-- Running a `RepoOp` on a stored non-terminal task with matching expectedVersion
succeeds and leaves the stored row at version exactly v + 1. -/
theorem runOp_succeeds (op : RepoOp) (taskId : String) (v : Nat)
    (now : Int) (st : Store) (t : Task)
    (hfind : selectTask st.tasks taskId = some t)
    (hv : t.version = v)
    (hterm : ¬ (t.state = .DONE ∨ t.state = .CANCELLED)) :
    ∃ r1 st1, runOp op taskId v now st = .ok (r1, st1) ∧
      ∃ t1, selectTask st1.tasks taskId = some t1 ∧ t1.version = v + 1 := by
  have hid1 : t.id = taskId := selectTask_id _ _ _ hfind
  cases op with
  | assignOp a =>
    have hsel := selectTask_updateWhere st.tasks taskId v
      (fun x => { x with assigneeId := some a, version := v + 1,
                         updatedAt := now })
      (fun _ => rfl) t hfind
    rw [if_pos ⟨hid1, hv⟩] at hsel
    refine ⟨⟨taskId, t.state, v + 1⟩,
      appendEvent
        { st with tasks := updateWhere st.tasks taskId v (fun x => { x with assigneeId := some a, version := v + 1, updatedAt := now }) }
        taskId (.assigned a) now,
      ?_,
      { t with assigneeId := some a, version := v + 1, updatedAt := now },
      hsel, rfl⟩
    unfold runOp TaskRepository.assign
    rw [hfind]
    dsimp only
    rw [if_neg (by simp [hv]), if_neg hterm]
  | transitionOp s =>
    have hsel := selectTask_updateWhere st.tasks taskId v
      (fun x => { x with state := s, version := v + 1, updatedAt := now })
      (fun _ => rfl) t hfind
    rw [if_pos ⟨hid1, hv⟩] at hsel
    refine ⟨⟨taskId, s, v + 1⟩,
      appendEvent
        { st with tasks := updateWhere st.tasks taskId v (fun x => { x with state := s, version := v + 1, updatedAt := now }) }
        taskId (.stateChanged t.state s) now,
      ?_,
      { t with state := s, version := v + 1, updatedAt := now },
      hsel, rfl⟩
    unfold runOp TaskRepository.transition
    rw [hfind]
    dsimp only
    rw [if_neg (by simp [hv])]

/-- C6: two racing `assign`/`transition` calls on the same task with the
same expectedVersion (each running as one atomic SQLite transaction, the
unit at which `better-sqlite3` serialises them) have exactly one winner:
whichever transaction commits first succeeds, the other returns
VersionMismatch, and the final stored version is initial + 1, never + 2. -/
theorem optimistic_single_winner (st : Store) (taskId : String) (t : Task)
    (v : Nat) (op1 op2 : RepoOp) (now1 now2 : Int)
    (hfind : selectTask st.tasks taskId = some t)
    (hv : t.version = v)
    (hterm : ¬ (t.state = .DONE ∨ t.state = .CANCELLED)) :
    ∃ r1 st1, runOp op1 taskId v now1 st = .ok (r1, st1) ∧
      runOp op2 taskId v now2 st1 = .error .VersionMismatch ∧
      ∃ t1, selectTask st1.tasks taskId = some t1 ∧ t1.version = v + 1 := by
  obtain ⟨r1, st1, hok, t1, hsel1, hv1⟩ :=
    runOp_succeeds op1 taskId v now1 st t hfind hv hterm
  refine ⟨r1, st1, hok, ?_, t1, hsel1, hv1⟩
  exact runOp_version_mismatch op2 taskId v now2 st1 t1 hsel1
    (by rw [hv1]; exact Nat.succ_ne_self v)

/-- Witness for C6 at a concrete store and a concrete pair of racing
calls. -/
theorem optimistic_single_winner_witness :
    ∃ r1 st1,
      runOp (.assignOp "u1") "t1" 1 10
          ⟨[⟨"t1", "tenant_1", "ws_1", "A", .HIGH, .NEW, none, 1, 7, 7⟩],
           [], []⟩
        = .ok (r1, st1) ∧
      runOp (.assignOp "u2") "t1" 1 11 st1 = .error .VersionMismatch ∧
      ∃ t1, selectTask st1.tasks "t1" = some t1 ∧ t1.version = 1 + 1 :=
  optimistic_single_winner
    ⟨[⟨"t1", "tenant_1", "ws_1", "A", .HIGH, .NEW, none, 1, 7, 7⟩], [], []⟩
    "t1"
    ⟨"t1", "tenant_1", "ws_1", "A", .HIGH, .NEW, none, 1, 7, 7⟩
    1 (.assignOp "u1") (.assignOp "u2") 10 11
    (by decide) (by decide) (by decide)

/-- C8: the method `list` returns tasks ordered by creation time descending; with a
cursor only rows with creation time strictly below the cursor are
returned (a row equal to the cursor is excluded); with no limit at most
20 rows come back. -/
theorem list_order_cursor_limit (workspaceId tenantId : String)
    (f : TaskRepository.ListFilters) (st : Store) :
    List.Sorted TaskRepository.createdDesc
        (TaskRepository.list workspaceId tenantId f st) ∧
    (∀ c, f.cursor = some c →
      ∀ t ∈ TaskRepository.list workspaceId tenantId f st,
        t.createdAt < c) ∧
    (f.limit = none →
      (TaskRepository.list workspaceId tenantId f st).length ≤ 20) := by
  refine ⟨?_, ?_, ?_⟩
  · unfold TaskRepository.list
    exact List.Pairwise.sublist (List.take_sublist _ _)
      (List.sorted_insertionSort _ _)
  · intro c hc t ht
    unfold TaskRepository.list at ht
    have ht2 := List.mem_of_mem_take ht
    rw [List.mem_insertionSort] at ht2
    have hm := (List.mem_filter.mp ht2).2
    simp only [TaskRepository.listMatches, decide_eq_true_eq] at hm
    exact hm.2.2.2.2 c (by rw [hc]; rfl)
  · intro hl
    unfold TaskRepository.list
    rw [hl]
    exact List.length_take_le _ _

/-- Witness for C8: with cursor 5 the task created at time 3 is listed
and indeed satisfies createdAt < 5; with no limit the result stays within
20 rows. -/
theorem list_order_cursor_limit_witness :
    ((3 : Int) < 5) ∧
    (TaskRepository.list "ws_1" "tenant_1" ⟨none, none, none, some 5⟩
        ⟨[⟨"a", "tenant_1", "ws_1", "A", .LOW, .NEW, none, 1, 3, 3⟩,
          ⟨"b", "tenant_1", "ws_1", "B", .LOW, .NEW, none, 1, 9, 9⟩],
         [], []⟩).length ≤ 20 := by
  refine ⟨?_, ?_⟩
  · exact (list_order_cursor_limit "ws_1" "tenant_1"
      ⟨none, none, none, some 5⟩
      ⟨[⟨"a", "tenant_1", "ws_1", "A", .LOW, .NEW, none, 1, 3, 3⟩,
        ⟨"b", "tenant_1", "ws_1", "B", .LOW, .NEW, none, 1, 9, 9⟩],
       [], []⟩).2.1 5 rfl
      ⟨"a", "tenant_1", "ws_1", "A", .LOW, .NEW, none, 1, 3, 3⟩
      (by decide)
  · exact (list_order_cursor_limit "ws_1" "tenant_1"
      ⟨none, none, none, some 5⟩
      ⟨[⟨"a", "tenant_1", "ws_1", "A", .LOW, .NEW, none, 1, 3, 3⟩,
        ⟨"b", "tenant_1", "ws_1", "B", .LOW, .NEW, none, 1, 9, 9⟩],
       [], []⟩).2.2 rfl

end Workflow
